import Mathlib

/-!
Shallow embedding of the voice subsystem of the discord_rag_bot repository
(internal/bot/voice.go together with the voice-interaction logger in
internal/bot/handler.go), and proofs about its behaviour.

Machine integers of the Go source are modelled as Nat/Int; byte buffers as
List Nat; fallible collaborator calls as Except values supplied by an
environment record.  Each Go function that the development reasons about is
translated into a Lean definition of the same name.
-/

namespace DiscordRagBot

/-! ## Utterance segmenter: the loop body of handleVoiceRecording

The Go loop keeps `lastBufferSize` and `silenceCount` and, every 100 ms tick,
reads the current audio-buffer length.  The loop state and the per-tick update
are embedded directly. -/

structure RecState where
  lastBufferSize : Nat
  silenceCount : Nat
  deriving Repr, DecidableEq

/-- Constant from voice.go line 371: silence threshold (ticks). -/
def silenceThreshold : Nat := 20

/-- Constant from voice.go lines 371/378/408: minimum meaningful byte count. -/
def minAudioBytes : Nat := 16000

/-- Constant from voice.go line 354: `maxRecordingTime := 300`. -/
def maxRecordingTime : Nat := 300

/-- The counter update at the top of each tick (voice.go lines 363-368):
if the size is unchanged, increment `silenceCount`; otherwise zero it and
record the new size. -/
def recStep (s : RecState) (currentSize : Nat) : RecState :=
  if currentSize = s.lastBufferSize then
    ⟨s.lastBufferSize, s.silenceCount + 1⟩
  else
    ⟨currentSize, 0⟩

/-- Outcome of one tick: keep looping, flush the buffer to
processRecordedAudio, or silently discard it. -/
inductive TickOutcome where
  | running (s : RecState)
  | emitted (size : Nat)
  | discarded
  deriving Repr, DecidableEq

/-- One full tick of handleVoiceRecording (voice.go lines 358-389): update the
counters, then flush when `silenceCount >= 20 && currentSize > 16000`, else
check the `silenceCount >= maxRecordingTime` branch which flushes when
`currentSize > 16000` and discards otherwise. -/
def recTick (s : RecState) (currentSize : Nat) : TickOutcome :=
  let s2 := recStep s currentSize
  if silenceThreshold ≤ s2.silenceCount ∧ minAudioBytes < currentSize then
    TickOutcome.emitted currentSize
  else if maxRecordingTime ≤ s2.silenceCount then
    if minAudioBytes < currentSize then TickOutcome.emitted currentSize
    else TickOutcome.discarded
  else TickOutcome.running s2

/-- Run the handleVoiceRecording loop over a trace of observed buffer sizes,
one per tick.  Returns the 1-based tick at which the loop exits together with
the exit outcome, or `none` when the trace ends with the loop still running. -/
def handleVoiceRecordingLoop : RecState → List Nat → Option (Nat × TickOutcome)
  | _, [] => none
  | s, size :: rest =>
    match recTick s size with
    | TickOutcome.running s2 =>
        (handleVoiceRecordingLoop s2 rest).map (fun p => (p.1 + 1, p.2))
    | o => some (1, o)

/-- Initial loop state (voice.go lines 352-353). -/
def initRecState : RecState := ⟨0, 0⟩

/-- The concrete trace of the acceptance scenario: 40 ticks of strictly
growing buffer reaching 40000 bytes, then 25 ticks of unchanged size. -/
def c1Trace : List Nat :=
  (List.range 40).map (fun i => (i + 1) * 1000) ++ List.replicate 25 40000

/-- A trace on which the buffer grows on every one of 350 ticks. -/
def c2Trace : List Nat :=
  (List.range 350).map (fun i => (i + 1) * 100)

/-! ## Session state, observable events, and the per-utterance pipeline -/

/-- The VoiceConnection wrapper of voice.go lines 21-34.  The opus decoder and
encoder handles carry no modelled state; the context/cancel pair and the
underlying discordgo connection are identified by `connId` and observed
through events. -/
structure VoiceConn where
  connId : Nat
  guildID : String
  channelID : String
  userId : String
  audioBuffer : List Nat
  lastActivity : Nat
  isRecording : Bool
  deriving Repr, DecidableEq

/-- Observable side effects of the voice subsystem. -/
inductive Event where
  | logged (msg : String)
  | sttCalled
  | sentChannelMessage (channelID text : String)
  | sentAudio
  | createdInteraction (guildID channelID userID username query response : String)
  | cancelledCtx (guildID : String)
  | disconnected (connId : Nat)
  | registered (guildID : String) (connId : Nat)
  deriving Repr, DecidableEq

/-- Events that tear a session down: cancelling its context or disconnecting
its underlying connection. -/
def Event.isTeardown : Event → Bool
  | Event.cancelledCtx _ => true
  | Event.disconnected _ => true
  | _ => false

/-- Results of the external collaborators consumed by processRecordedAudio
(ffmpeg, the AI service, discordgo lookups, the database), supplied as an
environment so each call site of the Go code has its outcome modelled. -/
structure Collab where
  pcmToWav : List Nat → Except String (List Nat)
  speechToText : List Nat → Except String String
  guildName : String → Except String String
  channelInfo : String → Except String String
  searchRelevantContext : String → String → Nat → Except String String
  generateResponse : String → String → String → String → Except String String
  textToSpeech : String → Except String (List Nat)
  sendAudioResult : Except String Unit
  dbCreate : Except String Unit

/-- handler.go lines 332-346: build a BotInteraction row and insert it; a
database error is only logged.  The return type carries no error. -/
def logVoiceInteraction (dbResult : Except String Unit)
    (guildID channelID userID username query response : String) : List Event :=
  match dbResult with
  | Except.ok _ =>
      [Event.createdInteraction guildID channelID userID username query response]
  | Except.error e =>
      [Event.logged ("Error logging voice interaction: " ++ e)]

/-- The side effects of voice.go lines 406-485: every collaborator failure is
only logged and ends the pipeline for this one utterance.  The detached
message-send and TTS goroutines are modelled by their emitted events. -/
def processRecordedAudioEvents (env : Collab) (vc : VoiceConn) : List Event :=
  let audioData := vc.audioBuffer
  if audioData.length < minAudioBytes then
    [Event.logged "Audio data too small, skipping"]
  else
    match env.pcmToWav audioData with
    | Except.error e => [Event.logged ("Error converting PCM to WAV: " ++ e)]
    | Except.ok wavData =>
      match env.speechToText wavData with
      | Except.error e =>
          [Event.sttCalled, Event.logged ("Error in speech-to-text: " ++ e)]
      | Except.ok text =>
        if text.trim = "" then
          [Event.sttCalled, Event.logged "Empty transcription, skipping"]
        else
          match env.guildName vc.guildID with
          | Except.error e =>
              [Event.sttCalled, Event.logged ("Error getting guild info: " ++ e)]
          | Except.ok gName =>
            match env.channelInfo vc.channelID with
            | Except.error e =>
                [Event.sttCalled, Event.logged ("Error getting channel info: " ++ e)]
            | Except.ok chanID =>
              match env.searchRelevantContext text vc.guildID 5 with
              | Except.error e =>
                  [Event.sttCalled, Event.logged ("Error getting context: " ++ e)]
              | Except.ok ctxInfo =>
                match env.generateResponse text ctxInfo "Voice User" gName with
                | Except.error e =>
                    [Event.sttCalled, Event.logged ("Error generating response: " ++ e)]
                | Except.ok response =>
                  let msgEvents :=
                    [Event.sentChannelMessage chanID ("Voice Message: " ++ text ++ " " ++ response)]
                  let ttsEvents :=
                    match env.textToSpeech response with
                    | Except.error e => [Event.logged ("Error generating TTS: " ++ e)]
                    | Except.ok _ =>
                      match env.sendAudioResult with
                      | Except.error e => [Event.logged ("Error playing TTS audio: " ++ e)]
                      | Except.ok _ => [Event.sentAudio]
                  Event.sttCalled :: msgEvents ++ ttsEvents ++
                    logVoiceInteraction env.dbCreate vc.guildID chanID vc.userId
                      "Voice User" text response

/-- The discard branch of handleVoiceRecording (voice.go lines 382-386) and
likewise the unconditional head of processRecordedAudio (voice.go lines
399-404): reset the buffer and clear the recording flag. -/
def discardRecording (vc : VoiceConn) : VoiceConn :=
  ⟨vc.connId, vc.guildID, vc.channelID, vc.userId, [], vc.lastActivity, false⟩

/-- voice.go lines 398-485.  The buffer is snapshotted and reset and the
recording flag cleared under the lock (lines 399-404, unconditionally);
everything after that only produces events. -/
def processRecordedAudio (env : Collab) (vc : VoiceConn) : VoiceConn × List Event :=
  (discardRecording vc, processRecordedAudioEvents env vc)

/-! ## Inbound packet handling -/

/-- The fields of a discordgo voice packet that processVoicePacket reads:
the per-packet SSRC and the (possibly nil) compressed opus payload. -/
structure Packet where
  ssrc : Nat
  opus : Option (List Nat)
  deriving Repr, DecidableEq

/-- Go `uint16(sample)` of an int16 sample. -/
def int16ToUint16 (s : Int) : Nat := (s % 65536).toNat

/-- voice.go lines 330-333: serialize int16 samples little-endian. -/
def pcmToBytes (pcm : List Int) : List Nat :=
  (pcm.map (fun s => [int16ToUint16 s % 256, int16ToUint16 s / 256])).flatten

/-- voice.go lines 305-346.  Returns the updated session and whether a new
handleVoiceRecording task is spawned.  The opus decoder is an environment
function returning the PCM samples or a decode error. -/
def processVoicePacket (decode : List Nat → Except String (List Int)) (now : Nat)
    (vc : VoiceConn) (p : Packet) : VoiceConn × Bool :=
  match p.opus with
  | none => (vc, false)
  | some op =>
    if op.length = 0 then (vc, false)
    else if p.ssrc = 0 then (vc, false)
    else
      match decode op with
      | Except.error _ => (vc, false)
      | Except.ok pcmData =>
        if pcmData.length = 0 then (vc, false)
        else
          (⟨vc.connId, vc.guildID, vc.channelID, vc.userId,
            vc.audioBuffer ++ pcmToBytes pcmData, now, true⟩, !vc.isRecording)

/-! ## The VoiceManager registry

Both JoinVoiceChannel and LeaveVoiceChannel hold the manager mutex `vm.mu`
for their entire body, so every concurrent execution is equivalent to the
sequence of whole calls in lock-acquisition order.  The registry is embedded
as an association list keyed by guild identifier (the Go map), together with
a counter that names each freshly opened underlying connection. -/

structure Manager where
  connections : List (String × VoiceConn)
  nextConnId : Nat
  deriving Repr, DecidableEq

def emptyManager : Manager := ⟨[], 0⟩

/-- Go map lookup `vm.connections[guildID]`. -/
def lookupConn (m : Manager) (g : String) : Option VoiceConn :=
  (m.connections.find? (fun p => p.1 == g)).map Prod.snd

/-- Go map delete `delete(vm.connections, guildID)`. -/
def removeConn (l : List (String × VoiceConn)) (g : String) : List (String × VoiceConn) :=
  l.filter (fun p => !(p.1 == g))

/-- Outcome of the environment during a join: ChannelVoiceJoin fails, the
ready wait times out, decoder or encoder creation fails, or all succeed. -/
inductive JoinEnv where
  | connectFail
  | readyTimeout
  | decoderFail
  | encoderFail
  | ok
  deriving Repr, DecidableEq

/-- voice.go lines 50-133.  Under the lock: tear down and delete any existing
entry for the guild, then open a new connection; on ready-timeout or codec
failure disconnect the new connection and return the error; on success
register the fresh session and return nil. -/
def JoinVoiceChannel (env : JoinEnv) (now : Nat) (m : Manager)
    (guildID channelID userID : String) : Manager × Except String Unit × List Event :=
  let tearEvents :=
    match lookupConn m guildID with
    | some old => [Event.cancelledCtx guildID, Event.disconnected old.connId]
    | none => []
  let conns1 := removeConn m.connections guildID
  match env with
  | JoinEnv.connectFail =>
      (⟨conns1, m.nextConnId⟩, Except.error "failed to join voice channel", tearEvents)
  | JoinEnv.readyTimeout =>
      (⟨conns1, m.nextConnId + 1⟩, Except.error "voice connection timeout",
        tearEvents ++ [Event.disconnected m.nextConnId])
  | JoinEnv.decoderFail =>
      (⟨conns1, m.nextConnId + 1⟩, Except.error "failed to create decoder",
        tearEvents ++ [Event.disconnected m.nextConnId])
  | JoinEnv.encoderFail =>
      (⟨conns1, m.nextConnId + 1⟩, Except.error "failed to create encoder",
        tearEvents ++ [Event.disconnected m.nextConnId])
  | JoinEnv.ok =>
      let vc : VoiceConn := ⟨m.nextConnId, guildID, channelID, userID, [], now, false⟩
      (⟨(guildID, vc) :: conns1, m.nextConnId + 1⟩, Except.ok (),
        tearEvents ++ [Event.registered guildID m.nextConnId])

/-- voice.go lines 135-155.  Under the lock: error when no session is
registered for the guild, otherwise cancel, disconnect and delete. -/
def LeaveVoiceChannel (m : Manager) (guildID : String) :
    Manager × Except String Unit × List Event :=
  match lookupConn m guildID with
  | none =>
      (m, Except.error ("not connected to voice channel in guild " ++ guildID), [])
  | some vc =>
      (⟨removeConn m.connections guildID, m.nextConnId⟩, Except.ok (),
        [Event.cancelledCtx guildID, Event.disconnected vc.connId])

/-- One registry call; since each call holds `vm.mu` throughout, a concurrent
history is a sequence of these atomic operations. -/
inductive RegOp where
  | join (env : JoinEnv) (now : Nat) (guildID channelID userID : String)
  | leave (guildID : String)

def applyOp (m : Manager) : RegOp → Manager × Except String Unit × List Event
  | RegOp.join env now g c u => JoinVoiceChannel env now m g c u
  | RegOp.leave g => LeaveVoiceChannel m g

/-- Run a serialized history of registry calls. -/
def runOps (m : Manager) : List RegOp → Manager
  | [] => m
  | op :: rest => runOps (applyOp m op).1 rest

/-- Number of sessions registered for group `g`. -/
def liveCount (m : Manager) (g : String) : Nat :=
  (m.connections.filter (fun p => p.1 == g)).length

/-! ## Helper lemmas -/

set_option maxRecDepth 1000000

lemma recTick_stall (sz c : Nat) (hsz : sz ≤ minAudioBytes) :
    recTick ⟨sz, c⟩ sz =
      if maxRecordingTime ≤ c + 1 then TickOutcome.discarded
      else TickOutcome.running ⟨sz, c + 1⟩ := by
  have h1 : ¬ minAudioBytes < sz := Nat.not_lt.mpr hsz
  simp [recTick, recStep, h1]

lemma recTick_emitted_iff (s : RecState) (size sz : Nat) :
    recTick s size = TickOutcome.emitted sz ↔
      sz = size ∧ silenceThreshold ≤ (recStep s size).silenceCount ∧ minAudioBytes < size := by
  constructor
  · intro h
    simp only [recTick] at h
    split at h
    · next hcond => exact ⟨(TickOutcome.emitted.inj h).symm, hcond.1, hcond.2⟩
    · next hcond =>
      split at h
      · next hcap =>
        split at h
        · next hbig =>
          exact absurd ⟨le_trans (by decide) hcap, hbig⟩ hcond
        · exact absurd h (by simp)
      · exact absurd h (by simp)
  · rintro ⟨rfl, h2, h3⟩
    simp only [recTick]
    rw [if_pos ⟨h2, h3⟩]

lemma loop_cons (s : RecState) (x : Nat) (rest : List Nat) :
    handleVoiceRecordingLoop s (x :: rest) =
      match recTick s x with
      | TickOutcome.running s2 =>
          (handleVoiceRecordingLoop s2 rest).map (fun p => (p.1 + 1, p.2))
      | o => some (1, o) := rfl

lemma loop_replicate_stall (sz : Nat) (hsz : sz ≤ minAudioBytes) :
    ∀ (j c : Nat), c < maxRecordingTime →
      handleVoiceRecordingLoop ⟨sz, c⟩ (List.replicate j sz) =
        if maxRecordingTime ≤ c + j then some (maxRecordingTime - c, TickOutcome.discarded)
        else none := by
  intro j
  induction j with
  | zero =>
    intro c hc
    have h0 : ¬ maxRecordingTime ≤ c := by omega
    simp [handleVoiceRecordingLoop, h0]
  | succ j ih =>
    intro c hc
    rw [List.replicate_succ, loop_cons, recTick_stall sz c hsz]
    by_cases hcap : maxRecordingTime ≤ c + 1
    · have h1 : maxRecordingTime ≤ c + (j + 1) := by omega
      have h2 : maxRecordingTime - c = 1 := by omega
      simp [hcap, h1, h2]
    · have := ih (c + 1) (by omega)
      simp only [hcap, if_false, this]
      by_cases hj : maxRecordingTime ≤ c + 1 + j
      · have hj2 : maxRecordingTime ≤ c + (j + 1) := by omega
        have hj3 : maxRecordingTime - (c + 1) + 1 = maxRecordingTime - c := by omega
        simp [hj, hj2, hj3]
      · have hj2 : ¬ maxRecordingTime ≤ c + (j + 1) := by omega
        simp [hj, hj2]

lemma loop_no_emit_below_floor :
    ∀ (trace : List Nat) (s : RecState), (∀ x ∈ trace, x ≤ minAudioBytes) →
      ∀ n e, handleVoiceRecordingLoop s trace ≠ some (n, TickOutcome.emitted e) := by
  intro trace
  induction trace with
  | nil => intro s h n e; simp [handleVoiceRecordingLoop]
  | cons x rest ih =>
    intro s h n e
    have hx : ¬ minAudioBytes < x := Nat.not_lt.mpr (h x (by simp))
    have hrest : ∀ y ∈ rest, y ≤ minAudioBytes := fun y hy => h y (by simp [hy])
    rw [loop_cons]
    cases htick : recTick s x with
    | running s2 =>
      simp only []
      intro hcontra
      rcases Option.map_eq_some'.mp hcontra with ⟨⟨n1, o1⟩, h1, h2⟩
      simp at h2
      exact ih s2 hrest n1 e (by rw [h1, h2.2])
    | emitted sz =>
      exact absurd ((recTick_emitted_iff s x sz).mp htick).2.2 hx
    | discarded => simp

lemma processRecordedAudio_fst (env : Collab) (vc : VoiceConn) :
    (processRecordedAudio env vc).1 = discardRecording vc := rfl

lemma logVoiceInteraction_no_teardown (db : Except String Unit)
    (g ch us un q r : String) :
    ((logVoiceInteraction db g ch us un q r).all (fun e => !e.isTeardown)) = true := by
  unfold logVoiceInteraction
  cases db <;> simp [Event.isTeardown]

lemma processRecordedAudioEvents_no_teardown (env : Collab) (vc : VoiceConn) :
    ((processRecordedAudioEvents env vc).all (fun e => !e.isTeardown)) = true := by
  unfold processRecordedAudioEvents
  by_cases h1 : vc.audioBuffer.length < minAudioBytes
  · simp [h1, Event.isTeardown]
  · cases h2 : env.pcmToWav vc.audioBuffer with
    | error e => simp [h1, h2, Event.isTeardown]
    | ok wav =>
      cases h3 : env.speechToText wav with
      | error e => simp [h1, h2, h3, Event.isTeardown]
      | ok text =>
        by_cases h4 : text.trim = ""
        · simp [h1, h2, h3, h4, Event.isTeardown]
        · cases h5 : env.guildName vc.guildID with
          | error e => simp [h1, h2, h3, h4, h5, Event.isTeardown]
          | ok gName =>
            cases h6 : env.channelInfo vc.channelID with
            | error e => simp [h1, h2, h3, h4, h5, h6, Event.isTeardown]
            | ok chanID =>
              cases h7 : env.searchRelevantContext text vc.guildID 5 with
              | error e => simp [h1, h2, h3, h4, h5, h6, h7, Event.isTeardown]
              | ok ctxInfo =>
                cases h8 : env.generateResponse text ctxInfo "Voice User" gName with
                | error e => simp [h1, h2, h3, h4, h5, h6, h7, h8, Event.isTeardown]
                | ok response =>
                  cases h9 : env.textToSpeech response with
                  | error e =>
                    cases h11 : env.dbCreate <;>
                      simp [h1, h2, h3, h4, h5, h6, h7, h8, h9, h11,
                        logVoiceInteraction, Event.isTeardown]
                  | ok tts =>
                    cases h10 : env.sendAudioResult <;>
                      cases h11 : env.dbCreate <;>
                        simp [h1, h2, h3, h4, h5, h6, h7, h8, h9, h10, h11,
                          logVoiceInteraction, Event.isTeardown]

lemma removeConn_sublist (l : List (String × VoiceConn)) (g : String) :
    List.Sublist (removeConn l g) l := List.filter_sublist l

lemma filter_removeConn_self (l : List (String × VoiceConn)) (g : String) :
    (removeConn l g).filter (fun p => p.1 == g) = [] := by
  induction l with
  | nil => rfl
  | cons a l ih =>
    unfold removeConn at ih ⊢
    cases h : a.1 == g <;> simp [List.filter_cons, h, ih]

lemma lookupConn_remove (l : List (String × VoiceConn)) (n : Nat) (g : String) :
    lookupConn ⟨removeConn l g, n⟩ g = none := by
  have hf : (removeConn l g).find? (fun p => p.1 == g) = none := by
    rw [List.find?_eq_none]
    intro x hx
    have := (List.mem_filter.mp hx).2
    simp at this
    simp [this]
  simp [lookupConn, hf]

lemma liveCount_remove_le (l : List (String × VoiceConn)) (n n2 : Nat) (g g2 : String) :
    liveCount ⟨removeConn l g2, n⟩ g ≤ liveCount ⟨l, n2⟩ g :=
  List.Sublist.length_le (List.Sublist.filter _ (removeConn_sublist l g2))

lemma liveCount_applyOp_le_one (m : Manager) (op : RegOp) (g : String)
    (h : ∀ g2, liveCount m g2 ≤ 1) : liveCount (applyOp m op).1 g ≤ 1 := by
  cases op with
  | leave g2 =>
    unfold applyOp LeaveVoiceChannel
    cases hx : lookupConn m g2 with
    | none => simpa [hx] using h g
    | some vc =>
      have hle := le_trans (liveCount_remove_le m.connections m.nextConnId m.nextConnId g g2) (h g)
      simpa [hx] using hle
  | join env now g2 c u =>
    unfold applyOp JoinVoiceChannel
    cases env
    case connectFail =>
      simp only []
      exact le_trans (liveCount_remove_le m.connections m.nextConnId m.nextConnId g g2) (h g)
    case readyTimeout =>
      simp only []
      exact le_trans (liveCount_remove_le m.connections (m.nextConnId + 1) m.nextConnId g g2) (h g)
    case decoderFail =>
      simp only []
      exact le_trans (liveCount_remove_le m.connections (m.nextConnId + 1) m.nextConnId g g2) (h g)
    case encoderFail =>
      simp only []
      exact le_trans (liveCount_remove_le m.connections (m.nextConnId + 1) m.nextConnId g g2) (h g)
    case ok =>
      simp only [liveCount, List.filter_cons]
      cases hg : g2 == g with
      | true =>
        have hgg : g2 = g := eq_of_beq hg
        subst hgg
        simp [filter_removeConn_self]
      | false =>
        simp only [hg, Bool.false_eq_true, if_neg]
        simpa using
          le_trans (liveCount_remove_le m.connections (m.nextConnId + 1) m.nextConnId g g2) (h g)

lemma liveCount_runOps_le_one (ops : List RegOp) :
    ∀ m, (∀ g, liveCount m g ≤ 1) → ∀ g, liveCount (runOps m ops) g ≤ 1 := by
  induction ops with
  | nil =>
    intro m h g
    simpa [runOps] using h g
  | cons op rest ih =>
    intro m h g
    have hstep : ∀ g2, liveCount (applyOp m op).1 g2 ≤ 1 :=
      fun g2 => liveCount_applyOp_le_one m op g2 h
    simpa [runOps] using ih (applyOp m op).1 hstep g

lemma join_ok_lookup (m : Manager) (now : Nat) (g c u : String) :
    lookupConn (JoinVoiceChannel JoinEnv.ok now m g c u).1 g =
      some ⟨m.nextConnId, g, c, u, [], now, false⟩ := by
  simp [JoinVoiceChannel, lookupConn, List.find?_cons]

lemma join_ok_liveCount (m : Manager) (now : Nat) (g c u : String) :
    liveCount (JoinVoiceChannel JoinEnv.ok now m g c u).1 g = 1 := by
  simp [JoinVoiceChannel, liveCount, List.filter_cons, filter_removeConn_self]

lemma join_ok_events_occupied (m : Manager) (now : Nat) (g c u : String)
    (old : VoiceConn) (hx : lookupConn m g = some old) :
    (JoinVoiceChannel JoinEnv.ok now m g c u).2.2 =
      [Event.cancelledCtx g, Event.disconnected old.connId,
       Event.registered g m.nextConnId] := by
  simp [JoinVoiceChannel, hx]

lemma lookupConn_after_leave (m : Manager) (g : String) :
    lookupConn (LeaveVoiceChannel m g).1 g = none := by
  cases hx : lookupConn m g with
  | none => simp [LeaveVoiceChannel, hx]
  | some vc => simp [LeaveVoiceChannel, hx, lookupConn_remove]

lemma leave_not_connected_error (m : Manager) (g : String) (h : lookupConn m g = none) :
    (LeaveVoiceChannel m g).2.1 =
      Except.error ("not connected to voice channel in guild " ++ g) := by
  simp [LeaveVoiceChannel, h]

/-! ## Claim theorems -/



/-- Claim C1: per tick, an unchanged buffer size increments the quiet counter
and a changed size resets it to 0 and updates the last observed size; a
boundary is emitted exactly when the updated counter has reached the silence
threshold of 20 with the accumulated buffer above the 16000-byte floor;
emission resets the buffer to empty and clears the recording flag; and on the
trace of 40 growth ticks followed by unchanged size above the floor, exactly
one utterance is emitted, at tick 60 and at no earlier tick. -/
theorem c1_segmentation_tick_and_boundary :
    (∀ (s : RecState) (size : Nat), size = s.lastBufferSize →
        recStep s size = ⟨s.lastBufferSize, s.silenceCount + 1⟩)
  ∧ (∀ (s : RecState) (size : Nat), size ≠ s.lastBufferSize →
        recStep s size = ⟨size, 0⟩)
  ∧ (∀ (s : RecState) (size sz : Nat), recTick s size = TickOutcome.emitted sz ↔
        sz = size ∧ silenceThreshold ≤ (recStep s size).silenceCount ∧ minAudioBytes < size)
  ∧ (∀ (env : Collab) (vc : VoiceConn), (processRecordedAudio env vc).1.audioBuffer = []
        ∧ (processRecordedAudio env vc).1.isRecording = false)
  ∧ handleVoiceRecordingLoop initRecState c1Trace = some (60, TickOutcome.emitted 40000)
  ∧ (∀ k, k < 60 → handleVoiceRecordingLoop initRecState (c1Trace.take k) = none) := by
  refine ⟨?_, ?_, ?_, ?_, ?_, ?_⟩
  · intro s size h; simp [recStep, h]
  · intro s size h; simp [recStep, h]
  · intro s size sz; exact recTick_emitted_iff s size sz
  · intro env vc; exact ⟨rfl, rfl⟩
  · decide
  · decide

theorem c1_segmentation_tick_and_boundary_witness :
    recStep ⟨5, 3⟩ 5 = ⟨5, 4⟩ ∧ recStep ⟨5, 3⟩ 7 = ⟨7, 0⟩ ∧
    recTick ⟨40000, 19⟩ 40000 = TickOutcome.emitted 40000 ∧
    handleVoiceRecordingLoop initRecState (c1Trace.take 59) = none :=
  ⟨c1_segmentation_tick_and_boundary.1 ⟨5, 3⟩ 5 rfl,
   c1_segmentation_tick_and_boundary.2.1 ⟨5, 3⟩ 7 (by decide),
   (c1_segmentation_tick_and_boundary.2.2.1 ⟨40000, 19⟩ 40000 40000).mpr
     ⟨rfl, by decide, by decide⟩,
   c1_segmentation_tick_and_boundary.2.2.2.2.2 59 (by decide)⟩

/-- Claim C2 (code-bug evidence): on a trace where the buffer grows on every
one of 350 ticks, the loop emits no boundary at all — in particular none at
tick 300 — because the cap check compares `silenceCount`, which resets to 0
on every growth tick, against 300, rather than counting elapsed ticks. -/
theorem c2_growth_never_stalls_no_forced_boundary :
    maxRecordingTime < c2Trace.length ∧
    handleVoiceRecordingLoop initRecState c2Trace = none := by
  exact ⟨by decide, by decide⟩

/-- Claim C3: on a trace whose every observed size is at or below the byte
floor, no utterance is ever emitted; when the stalled run reaches the cap the
outcome is a silent discard at tick 300, which resets the buffer and clears
the recording flag without handing anything to transcription. -/
theorem c3_below_floor_never_emits :
    (∀ (s : RecState) (trace : List Nat), (∀ x ∈ trace, x ≤ minAudioBytes) →
        ∀ n e, handleVoiceRecordingLoop s trace ≠ some (n, TickOutcome.emitted e))
  ∧ (∀ sz j, sz ≤ minAudioBytes → maxRecordingTime ≤ j →
        handleVoiceRecordingLoop ⟨sz, 0⟩ (List.replicate j sz) =
          some (maxRecordingTime, TickOutcome.discarded))
  ∧ (∀ vc : VoiceConn, (discardRecording vc).audioBuffer = []
        ∧ (discardRecording vc).isRecording = false) := by
  refine ⟨?_, ?_, ?_⟩
  · intro s trace h n e; exact loop_no_emit_below_floor trace s h n e
  · intro sz j hsz hj
    have h := loop_replicate_stall sz hsz j 0 (by decide)
    have hj2 : maxRecordingTime ≤ 0 + j := by omega
    rw [h, if_pos hj2, Nat.sub_zero]
  · intro vc; exact ⟨rfl, rfl⟩

theorem c3_below_floor_never_emits_witness :
    handleVoiceRecordingLoop ⟨1000, 0⟩ (List.replicate 300 1000) =
      some (maxRecordingTime, TickOutcome.discarded) ∧
    handleVoiceRecordingLoop ⟨0, 0⟩ [100, 100, 100] ≠ some (2, TickOutcome.emitted 100) :=
  ⟨c3_below_floor_never_emits.2.1 1000 300 (by decide) (by decide),
   c3_below_floor_never_emits.1 ⟨0, 0⟩ [100, 100, 100] (by decide) 2 100⟩


/-- Claim C4: both registry calls hold the manager mutex for their entire
body, so a concurrent history is modelled as a list of atomic calls in
lock-acquisition order.  At most one session is registered per group after
any history; the final state is the serial execution of the calls in some
order; and joining an occupied group cancels and disconnects the prior
session strictly before registering the new one, leaving exactly one
session registered. -/
theorem c4_registry_exclusivity :
    (∀ (ops : List RegOp) (g : String), liveCount (runOps emptyManager ops) g ≤ 1)
  ∧ (∀ ops : List RegOp, ∃ serial : List RegOp, List.Perm serial ops ∧
        runOps emptyManager ops = runOps emptyManager serial)
  ∧ (∀ (m : Manager) (now : Nat) (g c u : String) (old : VoiceConn),
        lookupConn m g = some old →
          (JoinVoiceChannel JoinEnv.ok now m g c u).2.2 =
            [Event.cancelledCtx g, Event.disconnected old.connId,
             Event.registered g m.nextConnId]
          ∧ liveCount (JoinVoiceChannel JoinEnv.ok now m g c u).1 g = 1) := by
  refine ⟨?_, ?_, ?_⟩
  · intro ops g
    exact liveCount_runOps_le_one ops emptyManager (fun g2 => Nat.zero_le 1) g
  · intro ops
    exact ⟨ops, List.Perm.refl ops, rfl⟩
  · intro m now g c u old h
    exact ⟨join_ok_events_occupied m now g c u old h, join_ok_liveCount m now g c u⟩

theorem c4_registry_exclusivity_witness :
    liveCount (runOps emptyManager
        [RegOp.join JoinEnv.ok 0 "g" "c" "u", RegOp.join JoinEnv.ok 1 "g" "c" "u"]) "g" ≤ 1 ∧
    (JoinVoiceChannel JoinEnv.ok 1
        (JoinVoiceChannel JoinEnv.ok 0 emptyManager "g" "c" "u").1 "g" "c" "u").2.2 =
      [Event.cancelledCtx "g", Event.disconnected 0, Event.registered "g" 1] :=
  ⟨c4_registry_exclusivity.1 [RegOp.join JoinEnv.ok 0 "g" "c" "u", RegOp.join JoinEnv.ok 1 "g" "c" "u"] "g",
   (c4_registry_exclusivity.2.2 (JoinVoiceChannel JoinEnv.ok 0 emptyManager "g" "c" "u").1
      1 "g" "c" "u" ⟨0, "g", "c", "u", [], 0, false⟩ (by decide)).1⟩

/-- Claim C5 as stated is false: JoinVoiceChannel never compares the channel,
so a second join with the identical group and channel does not return the
existing session unchanged — the prior session is disconnected (a teardown
event occurs) and the registry entry afterwards differs from before. -/
theorem c5_idempotent_join_counterexample :
    ¬ (lookupConn (JoinVoiceChannel JoinEnv.ok 1
          (JoinVoiceChannel JoinEnv.ok 0 emptyManager "g" "c" "u").1 "g" "c" "u").1 "g" =
        lookupConn (JoinVoiceChannel JoinEnv.ok 0 emptyManager "g" "c" "u").1 "g"
       ∧ ((JoinVoiceChannel JoinEnv.ok 1
            (JoinVoiceChannel JoinEnv.ok 0 emptyManager "g" "c" "u").1 "g" "c" "u").2.2.all
              (fun e => !e.isTeardown)) = true) := by decide

/-- Claim C5 (amended): a join for a group with an existing session — even
one targeting the same channel — cancels and disconnects the prior session
and registers a fresh session with a newly allocated connection identity, so
two successive identical joins yield distinct sessions. -/
theorem c5_join_replaces_not_idempotent (m : Manager) (now : Nat) (g c u : String)
    (old : VoiceConn) (h : lookupConn m g = some old) (_hsame : old.channelID = c) :
    lookupConn (JoinVoiceChannel JoinEnv.ok now m g c u).1 g =
        some ⟨m.nextConnId, g, c, u, [], now, false⟩
    ∧ Event.disconnected old.connId ∈ (JoinVoiceChannel JoinEnv.ok now m g c u).2.2
    ∧ Event.cancelledCtx g ∈ (JoinVoiceChannel JoinEnv.ok now m g c u).2.2
    ∧ (JoinVoiceChannel JoinEnv.ok now m g c u).1.nextConnId = m.nextConnId + 1 := by
  refine ⟨join_ok_lookup m now g c u, ?_, ?_, rfl⟩
  · rw [join_ok_events_occupied m now g c u old h]; simp
  · rw [join_ok_events_occupied m now g c u old h]; simp

theorem c5_join_replaces_not_idempotent_witness :
    lookupConn (JoinVoiceChannel JoinEnv.ok 1
        (JoinVoiceChannel JoinEnv.ok 0 emptyManager "g" "c" "u").1 "g" "c" "u").1 "g" =
      some ⟨1, "g", "c", "u", [], 1, false⟩ :=
  (c5_join_replaces_not_idempotent (JoinVoiceChannel JoinEnv.ok 0 emptyManager "g" "c" "u").1
    1 "g" "c" "u" ⟨0, "g", "c", "u", [], 0, false⟩ (by decide) rfl).1

/-- Claim C7: when the underlying connection cannot be established or does
not report ready within the bounded wait, JoinVoiceChannel returns an error,
no session for the group remains registered, and in the timeout case the
partially opened connection is disconnected before the error is returned. -/
theorem c7_join_failure_cleanup (env : JoinEnv) (now : Nat) (m : Manager) (g c u : String)
    (h : env = JoinEnv.connectFail ∨ env = JoinEnv.readyTimeout) :
    (∃ e, (JoinVoiceChannel env now m g c u).2.1 = Except.error e)
    ∧ lookupConn (JoinVoiceChannel env now m g c u).1 g = none
    ∧ (env = JoinEnv.readyTimeout →
        Event.disconnected m.nextConnId ∈ (JoinVoiceChannel env now m g c u).2.2) := by
  rcases h with rfl | rfl
  · refine ⟨⟨"failed to join voice channel", rfl⟩, ?_, ?_⟩
    · exact lookupConn_remove m.connections m.nextConnId g
    · intro hcontra; cases hcontra
  · refine ⟨⟨"voice connection timeout", rfl⟩, ?_, ?_⟩
    · exact lookupConn_remove m.connections (m.nextConnId + 1) g
    · intro _
      cases hx : lookupConn m g <;> simp [JoinVoiceChannel, hx]

theorem c7_join_failure_cleanup_witness :
    (∃ e, (JoinVoiceChannel JoinEnv.readyTimeout 0 emptyManager "g" "c" "u").2.1 =
        Except.error e)
    ∧ lookupConn (JoinVoiceChannel JoinEnv.readyTimeout 0 emptyManager "g" "c" "u").1 "g" = none
    ∧ (JoinEnv.readyTimeout = JoinEnv.readyTimeout →
        Event.disconnected 0 ∈
          (JoinVoiceChannel JoinEnv.readyTimeout 0 emptyManager "g" "c" "u").2.2) :=
  c7_join_failure_cleanup JoinEnv.readyTimeout 0 emptyManager "g" "c" "u" (Or.inr rfl)

/-- Claim C8: leaving with no session for the group returns a not-found
error and changes nothing; a second leave in a row always reports the error
(the function is total, so no crash); and a successful leave emits exactly
the cancel and disconnect events and removes the registry entry. -/
theorem c8_leave_semantics :
    (∀ (m : Manager) (g : String), lookupConn m g = none →
        LeaveVoiceChannel m g =
          (m, Except.error ("not connected to voice channel in guild " ++ g), []))
  ∧ (∀ (m : Manager) (g : String), ∃ e,
        (LeaveVoiceChannel (LeaveVoiceChannel m g).1 g).2.1 = Except.error e)
  ∧ (∀ (m : Manager) (g : String) (vc : VoiceConn), lookupConn m g = some vc →
        LeaveVoiceChannel m g =
          (⟨removeConn m.connections g, m.nextConnId⟩, Except.ok (),
            [Event.cancelledCtx g, Event.disconnected vc.connId])
        ∧ lookupConn (LeaveVoiceChannel m g).1 g = none) := by
  refine ⟨?_, ?_, ?_⟩
  · intro m g h; simp [LeaveVoiceChannel, h]
  · intro m g
    exact ⟨"not connected to voice channel in guild " ++ g,
      leave_not_connected_error (LeaveVoiceChannel m g).1 g (lookupConn_after_leave m g)⟩
  · intro m g vc h
    exact ⟨by simp [LeaveVoiceChannel, h], lookupConn_after_leave m g⟩

theorem c8_leave_semantics_witness :
    LeaveVoiceChannel emptyManager "g" =
      (emptyManager, Except.error ("not connected to voice channel in guild " ++ "g"), []) ∧
    lookupConn (LeaveVoiceChannel
        (JoinVoiceChannel JoinEnv.ok 0 emptyManager "g" "c" "u").1 "g").1 "g" = none :=
  ⟨c8_leave_semantics.1 emptyManager "g" rfl,
   (c8_leave_semantics.2.2 (JoinVoiceChannel JoinEnv.ok 0 emptyManager "g" "c" "u").1 "g"
      ⟨0, "g", "c", "u", [], 0, false⟩ (by decide)).2⟩

/-- Claim C9: whatever the collaborator outcomes — WAV conversion failure,
transcription failure or emptiness, guild/channel lookup failure, context
retrieval failure, response generation failure, TTS failure, playback
failure, database failure — processRecordedAudio emits no teardown event
(no context cancel, no disconnect), leaves the session ready for the next
utterance, and logVoiceInteraction only logs a persistence failure. -/
theorem c9_local_failures_only_logged :
    (∀ (env : Collab) (vc : VoiceConn),
        ((processRecordedAudio env vc).2.all (fun e => !e.isTeardown)) = true
        ∧ (processRecordedAudio env vc).1.audioBuffer = []
        ∧ (processRecordedAudio env vc).1.isRecording = false)
  ∧ (∀ (db : Except String Unit) (g ch us un q r : String),
        ((logVoiceInteraction db g ch us un q r).all (fun e => !e.isTeardown)) = true) :=
  ⟨fun env vc => ⟨processRecordedAudioEvents_no_teardown env vc, rfl, rfl⟩,
   fun db g ch us un q r => logVoiceInteraction_no_teardown db g ch us un q r⟩

/-- Claim C10: a packet with SSRC 0, a nil payload, or an empty payload is
dropped before any mutation: the session state (buffer, activity timestamp,
recording flag) is returned unchanged and no recording task is spawned. -/
theorem c10_invalid_packet_no_state_change
    (decode : List Nat → Except String (List Int)) (now : Nat) (vc : VoiceConn) (p : Packet)
    (h : p.ssrc = 0 ∨ p.opus = none ∨ p.opus = some []) :
    processVoicePacket decode now vc p = (vc, false) := by
  obtain ⟨ssrc, opus⟩ := p
  rcases h with h | h | h
  · simp only at h
    subst h
    cases opus with
    | none => rfl
    | some op =>
      unfold processVoicePacket
      by_cases hlen : op.length = 0
      · simp [hlen]
      · simp [hlen]
  · simp only at h; subst h; rfl
  · simp only at h; subst h; rfl

theorem c10_invalid_packet_no_state_change_witness :
    processVoicePacket (fun _ => Except.ok [1]) 5
        ⟨0, "g", "c", "u", [7], 0, false⟩ ⟨0, some [9]⟩ =
      (⟨0, "g", "c", "u", [7], 0, false⟩, false) :=
  c10_invalid_packet_no_state_change (fun _ => Except.ok [1]) 5
    ⟨0, "g", "c", "u", [7], 0, false⟩ ⟨0, some [9]⟩ (Or.inl rfl)

end DiscordRagBot
